import Mathlib

/-!
Verification development for the OxiLib configuration-bootstrap library
(src/src/lib.rs). The filesystem is modelled as an association list from
paths to file contents; Rust panics are modelled as an `Option.none`
result where the source can panic. The external TOML parser (the `toml`
crate) is an external collaborator of the library: the main operations
are parametric in a parse function `String → Option OptConf`, and a
concrete model parser `modelParse` is provided for evaluation.
-/

/-- Mirrors `ReadConfigFileError` (lib.rs:10), the opaque read error value. -/
structure ReadConfigFileError where
deriving DecidableEq, Repr

/-- Content of a regular file: either decodable UTF-8 `text`, or `binary`
bytes that `fs::read_to_string` fails to decode. -/
inductive FileContent where
  | text (s : String) : FileContent
  | binary (bs : List Nat) : FileContent
deriving DecidableEq, Repr

/-- Whether `fs::read` of this content yields an empty byte vector
(the UTF-8 encoding of `""` is empty). -/
def FileContent.byteEmpty : FileContent → Bool
  | .text s => s.isEmpty
  | .binary bs => bs.isEmpty

/-- What `fs::read_to_string` yields on this content: the text when the
bytes decode, `none` (an `Err`) otherwise. -/
def FileContent.toText : FileContent → Option String
  | .text s => some s
  | .binary _ => none

/-- The filesystem state: an association list from absolute paths to the
content of the regular file stored there; a path absent from the list is
not a regular file. -/
abbrev Fs := List (String × FileContent)

/-- Look up the content of the regular file at path `p`, if any. -/
def Fs.lookup : Fs → String → Option FileContent
  | [], _ => none
  | (q, c) :: fs, p => if q = p then some c else Fs.lookup fs p

/-- Store content `c` at path `p` (create the file or overwrite it). -/
def Fs.set : Fs → String → FileContent → Fs
  | [], p, c => [(p, c)]
  | (q, d) :: fs, p, c => if q = p then (p, c) :: fs else (q, d) :: Fs.set fs p c

/-- Mirrors `Path::is_file` on the modelled filesystem. -/
def isFile (fs : Fs) (p : String) : Bool :=
  (Fs.lookup fs p).isSome

/-- Mirrors `fs::read_to_string` on the modelled filesystem: `none` is the
`Err` case (file missing or bytes not decodable as UTF-8 text). -/
def readToStringFs (fs : Fs) (p : String) : Option String :=
  (Fs.lookup fs p).bind FileContent.toText

/-- Mirrors `Path::join` for a directory and a file name. -/
def pathJoin (dir name : String) : String :=
  dir ++ "/" ++ name

/-- Mirrors `PathBuf::from_str` (lib.rs:38, 62). Its `Err` type in Rust is
`Infallible`, so the conversion always succeeds with the same string. -/
def pathBufFromStr (s : String) : Option String :=
  some s

/-- The optional (partial) configuration schema `OptConf` of the tests
(lib.rs:154-158): every field may be absent. -/
structure OptConf where
  something : Option Nat
  what : Option String
deriving DecidableEq, Repr

/-- The complete configuration type `Conf` of the tests (lib.rs:132-136). -/
structure Conf where
  something : Nat
  what : String
deriving DecidableEq, Repr

/-- Mirrors `impl Config<OptConf> for Conf`, `create_from_optional`
(lib.rs:139-151): each present field is taken verbatim, each absent field
is replaced by its fixed type-specific default (`0`, `"pingpang"`). -/
def Conf.create_from_optional (optional : OptConf) : Conf :=
  let something :=
    match optional.something with
    | some something => something
    | none => 0
  let what :=
    match optional.what with
    | some what => what
    | none => "pingpang"
  { something := something, what := what }

/-- Mirrors lib.rs:82-86: when `config_file_name` is empty the directory
path itself is used as the file path, otherwise the name is joined. -/
def configFilePath (config_dir config_file_name : String) : String :=
  if config_file_name.isEmpty then config_dir
  else pathJoin config_dir config_file_name

/-- Mirrors lib.rs:87-89 and lib.rs:109-111: create the file (empty) when
the path is not a regular file, otherwise leave the state unchanged. -/
def ensureFileCreated (fs : Fs) (f : String) : Fs :=
  if isFile fs f then fs else Fs.set fs f (FileContent.text "")

/-- Mirrors lib.rs:90-99: read the file to text; an empty text or a failed
read is replaced (in memory only) by `default_config`. -/
def configContents (fs : Fs) (f default_config : String) : String :=
  match readToStringFs fs f with
  | some c => if c.isEmpty then default_config else c
  | none => default_config

/-- Mirrors lib.rs:100-103: parse the contents; on failure the SOURCE
re-parses the very same `contents` string and unwraps, so a parse failure
yields `none` (a panic), not a fallback to the default text. -/
def parseWithRetry (parse : String → Option OptConf) (contents : String) :
    Option OptConf :=
  match parse contents with
  | some d => some d
  | none => parse contents

/-- Mirrors `create_config` (lib.rs:73-105), instantiated at the test
types `Conf`/`OptConf` and parametric in the external TOML parser.
Returns the filesystem after the call and `some` of the produced complete
configuration, or `none` when the source panics (parse failure). -/
def create_config (fs : Fs) (parse : String → Option OptConf)
    (config_dir config_file_name default_config : String) :
    Fs × Option Conf :=
  let config_file := configFilePath config_dir config_file_name
  let fs1 := ensureFileCreated fs config_file
  let contents := configContents fs1 config_file default_config
  (fs1, (parseWithRetry parse contents).map Conf.create_from_optional)

/-- Mirrors `create_css` (lib.rs:107-119): ensure the file exists, then
write `css_content` exactly when the file bytes are empty; returns the
new state and the joined path. The read at lib.rs:112 cannot fail here
because the file was just ensured to exist. -/
def create_css (fs : Fs) (config_dir css_file css_content : String) :
    Fs × String :=
  let f := pathJoin config_dir css_file
  let fs1 := ensureFileCreated fs f
  let fs2 :=
    match Fs.lookup fs1 f with
    | some c =>
      if c.byteEmpty then Fs.set fs1 f (FileContent.text css_content) else fs1
    | none => fs1
  (fs2, f)

/-- Mirrors `read_specific_css` (lib.rs:37-53): path conversion, then the
`is_file` check, then the read; every failure is the opaque error. -/
def read_specific_css (fs : Fs) (absolute_path : String) :
    Except ReadConfigFileError String :=
  match pathBufFromStr absolute_path with
  | none => .error {}
  | some path =>
    if isFile fs path then
      match readToStringFs fs path with
      | some content => .ok content
      | none => .error {}
    else .error {}

/-- Mirrors `read_specific_config` (lib.rs:55-71): path conversion and
`is_file` check, then delegation to `create_config` with an empty file
name and an empty default string. -/
def read_specific_config (fs : Fs) (parse : String → Option OptConf)
    (absolute_path : String) :
    Except ReadConfigFileError (Fs × Option Conf) :=
  match pathBufFromStr absolute_path with
  | none => .error {}
  | some path =>
    if isFile fs path then .ok (create_config fs parse path "" "")
    else .error {}

/-- Whitespace characters trimmed by the model parser. -/
def isWs (c : Char) : Bool :=
  c = ' ' || c = '\t' || c = '\r'

/-- Trim leading and trailing whitespace from a character list. -/
def trimChars (cs : List Char) : List Char :=
  ((cs.dropWhile isWs).reverse.dropWhile isWs).reverse

/-- Split a character list at the first `=`, if any. -/
def splitAtEq : List Char → Option (List Char × List Char)
  | [] => none
  | c :: cs =>
    if c = '=' then some ([], cs)
    else
      match splitAtEq cs with
      | none => none
      | some (k, v) => some (c :: k, v)

/-- Split a character list into lines at newline characters. -/
def splitLines : List Char → List (List Char)
  | [] => [[]]
  | c :: cs =>
    if c = '\n' then [] :: splitLines cs
    else
      match splitLines cs with
      | [] => [[c]]
      | l :: ls => (c :: l) :: ls

/-- Accumulate a decimal numeral from digit characters. -/
def digitsToNatAux : Nat → List Char → Option Nat
  | acc, [] => some acc
  | acc, c :: cs =>
    if c.isDigit then digitsToNatAux (acc * 10 + (c.toNat - 48)) cs else none

/-- Parse a non-empty all-digit character list as a natural number. -/
def digitsToNat : List Char → Option Nat
  | [] => none
  | cs => digitsToNatAux 0 cs

/-- Parse a double-quoted basic string with no inner quote. -/
def parseQuoted (v : List Char) : Option (List Char) :=
  match v with
  | [] => none
  | c :: cs =>
    if c = '"' then
      match cs.reverse with
      | [] => none
      | d :: rest =>
        if d = '"' && rest.all (fun x => x ≠ '"') then some rest.reverse
        else none
    else none

/-- Characters of a bare TOML key. -/
def isIdentChar (c : Char) : Bool :=
  c.isAlphanum || c = '_' || c = '-'

/-- Modelled from the spec: one line of the external TOML parser for the
partial schema `OptConf` (the `toml` crate is not part of src/). A blank
or comment line is skipped, `something = <u32>` and `what = "<text>"` set
the corresponding field, any other well-formed `key = value` line is an
ignored unknown field, and anything else is a parse failure. -/
def applyLine (o : OptConf) (line : List Char) : Option OptConf :=
  let t := trimChars line
  if t.isEmpty then some o
  else if t.head? = some '#' then some o
  else
    match splitAtEq t with
    | none => none
    | some (k1, v1) =>
      let k := trimChars k1
      let v := trimChars v1
      if k = "something".data then
        match digitsToNat v with
        | some n =>
          if n < 4294967296 then some { o with something := some n } else none
        | none => none
      else if k = "what".data then
        match parseQuoted v with
        | some s => some { o with what := some (String.mk s) }
        | none => none
      else if decide (k ≠ []) && k.all isIdentChar then some o
      else none

/-- Fold `applyLine` over the lines, failing as soon as one line fails. -/
def applyLines (o : OptConf) : List (List Char) → Option OptConf
  | [] => some o
  | l :: ls =>
    match applyLine o l with
    | none => none
    | some o2 => applyLines o2 ls

/-- Modelled from the spec: the external TOML parser (`toml::from_str`,
not part of src/) restricted to the partial schema `OptConf`: every field
optional, unknown fields ignored, malformed text a failure. -/
def modelParse (s : String) : Option OptConf :=
  applyLines { something := none, what := none } (splitLines s.data)

theorem Fs.lookup_set_self (fs : Fs) (p : String) (c : FileContent) :
    Fs.lookup (Fs.set fs p c) p = some c := by
  induction fs with
  | nil => simp [Fs.set, Fs.lookup]
  | cons hd tl ih =>
    obtain ⟨q, d⟩ := hd
    by_cases h : q = p
    · simp [Fs.set, Fs.lookup, h]
    · simp [Fs.set, Fs.lookup, h, ih]

theorem isFile_set_self (fs : Fs) (p : String) (c : FileContent) :
    isFile (Fs.set fs p c) p = true := by
  simp [isFile, Fs.lookup_set_self]

theorem isFile_ensure (fs : Fs) (f : String) :
    isFile (ensureFileCreated fs f) f = true := by
  by_cases h : isFile fs f
  · simp [ensureFileCreated, h]
  · simp [ensureFileCreated, h, isFile_set_self]

theorem ensure_of_isFile {fs : Fs} {f : String} (h : isFile fs f = true) :
    ensureFileCreated fs f = fs := by
  simp [ensureFileCreated, h]

theorem ensure_idem (fs : Fs) (f : String) :
    ensureFileCreated (ensureFileCreated fs f) f = ensureFileCreated fs f :=
  ensure_of_isFile (isFile_ensure fs f)

/-- C1: on a file whose text fails to parse, `create_config` does NOT fall
back to parsing `default_config`: the source re-parses the same malformed
contents and unwraps (lib.rs:100-103), so the call panics (modelled as
`none`) even though the default text parses fine, and the invalid file on
disk is left untouched. -/
theorem create_config_malformed_panics :
    create_config [("d/config.toml", FileContent.text "<<<")] modelParse
        "d" "config.toml" "something = 10" =
      ([("d/config.toml", FileContent.text "<<<")], none) ∧
    modelParse "something = 10" = some { something := some 10, what := none } ∧
    modelParse "<<<" = none := by
  decide

/-- C2 counterexample: after `create_config` on a fresh directory the file
at `dir/config.toml` exists but its bytes are EMPTY — the default text was
never written to disk, contradicting the claim that a non-empty file
containing the default text is left behind. -/
theorem create_config_fresh_file_left_empty :
    Fs.lookup (create_config [] modelParse "d" "config.toml"
        "something = 10").1 "d/config.toml" = some (FileContent.text "") ∧
    FileContent.byteEmpty (FileContent.text "") = true := by
  decide

/-- C2 (amended): on a fresh directory, `create_config` with default
`something = 10` returns the complete value with `something = 10` and the
type default `pingpang` for `what`, and creates the file — but leaves it
empty on disk: the default is substituted only in memory for parsing. -/
theorem create_config_fresh_defaults_in_memory :
    create_config [] modelParse "d" "config.toml" "something = 10" =
      ([("d/config.toml", FileContent.text "")],
        some { something := 10, what := "pingpang" }) := by
  decide

/-- C4: when the file already holds non-empty parseable text, the result
is built from that existing text for EVERY default argument, and the
filesystem is returned entirely unchanged (no creation, no write). -/
theorem create_config_existing_wins (fs : Fs)
    (parse : String → Option OptConf) (dir name d s : String) (o : OptConf)
    (hlook : Fs.lookup fs (configFilePath dir name) =
      some (FileContent.text s))
    (hne : s.isEmpty = false) (hp : parse s = some o) :
    create_config fs parse dir name d =
      (fs, some (Conf.create_from_optional o)) := by
  have hf : isFile fs (configFilePath dir name) = true := by
    simp [isFile, hlook]
  simp [create_config, ensureFileCreated, hf, configContents, readToStringFs,
    hlook, FileContent.toText, hne, parseWithRetry, hp]

/-- Witness for C4 at the spec's example: a file already holding
`something = 42` wins over the default `something = 10`. -/
theorem create_config_existing_wins_witness :
    create_config [("d/config.toml", FileContent.text "something = 42")]
        modelParse "d" "config.toml" "something = 10" =
      ([("d/config.toml", FileContent.text "something = 42")],
        some { something := 42, what := "pingpang" }) :=
  create_config_existing_wins _ modelParse "d" "config.toml"
    "something = 10" "something = 42" { something := some 42, what := none }
    (by decide) (by decide) (by decide)

/-- C5: a second `create_config` call on the state left by a first call
with identical arguments returns exactly the same pair (same value, and
the filesystem unchanged by the second call). -/
theorem create_config_idempotent (fs : Fs)
    (parse : String → Option OptConf) (dir name d : String) :
    create_config (create_config fs parse dir name d).1 parse dir name d =
      create_config fs parse dir name d := by
  simp only [create_config]
  rw [ensure_idem]

/-- C3 counterexample: an existing regular file whose bytes do not decode
as text makes `read_specific_config` return `.ok` with the all-defaults
complete value (the empty default was substituted), NOT a read error. -/
theorem read_specific_config_undecodable_ok :
    read_specific_config [("/p", FileContent.binary [255])] modelParse "/p" =
      .ok ([("/p", FileContent.binary [255])],
        some { something := 0, what := "pingpang" }) := by
  rfl

/-- C3 (amended): `read_specific_config` fails with the read error exactly
when the path is not a regular file; on an existing file it always
returns `.ok`, and when the file's bytes cannot be decoded the empty
default is substituted and the all-defaults complete value is returned. -/
theorem read_specific_config_error_iff (fs : Fs)
    (parse : String → Option OptConf) (p : String) (bs : List Nat) :
    (isFile fs p = false → read_specific_config fs parse p = .error {}) ∧
    (isFile fs p = true →
      ∃ r, read_specific_config fs parse p = .ok r) ∧
    (Fs.lookup fs p = some (FileContent.binary bs) →
      parse "" = some { something := none, what := none } →
      read_specific_config fs parse p =
        .ok (fs, some { something := 0, what := "pingpang" })) := by
  refine ⟨?_, ?_, ?_⟩
  · intro h
    simp [read_specific_config, pathBufFromStr, h]
  · intro h
    refine ⟨create_config fs parse p "" "", ?_⟩
    simp [read_specific_config, pathBufFromStr, h]
  · intro hlook hparse
    have hf : isFile fs p = true := by simp [isFile, hlook]
    have hcf : configFilePath p "" = p := rfl
    have hfix : ensureFileCreated fs p = fs := ensure_of_isFile hf
    have hrc : readToStringFs fs p = none := by
      simp [readToStringFs, hlook, FileContent.toText]
    have hcc : configContents fs p "" = "" := by simp [configContents, hrc]
    have hpr : parseWithRetry parse "" =
        some { something := none, what := none } := by
      simp [parseWithRetry, hparse]
    simp [read_specific_config, pathBufFromStr, hf, create_config, hcf,
      hfix, hcc, hpr, Conf.create_from_optional]

/-- Witness for C3 (amended) at an undecodable single-byte file. -/
theorem read_specific_config_error_iff_witness :
    read_specific_config [("/q", FileContent.binary [200])] modelParse "/q" =
      .ok ([("/q", FileContent.binary [200])],
        some { something := 0, what := "pingpang" }) :=
  (read_specific_config_error_iff _ modelParse "/q" [200]).2.2
    (by decide) (by decide)

/-- C6: `read_specific_css` on a path that is not a regular file returns
the opaque read error value (a value, not a panic, and no default content
is substituted since the function has no default to draw from). -/
theorem read_specific_css_missing (fs : Fs) (p : String)
    (h : isFile fs p = false) :
    read_specific_css fs p = .error {} := by
  simp [read_specific_css, pathBufFromStr, h]

/-- Witness for C6 at the spec's example path on an empty filesystem. -/
theorem read_specific_css_missing_witness :
    read_specific_css ([] : Fs) "/nonexistent/path" = .error {} :=
  read_specific_css_missing [] "/nonexistent/path" (by decide)

/-- C7: a first `create_css` call on a missing file writes exactly the
given content; a later call with any other default content but the file
unchanged (and non-empty) returns the same path and leaves the
filesystem exactly as it was. -/
theorem create_css_provision (fs : Fs) (dir name c c2 : String)
    (h1 : isFile fs (pathJoin dir name) = false) (h2 : c.isEmpty = false) :
    (create_css fs dir name c).2 = pathJoin dir name ∧
    Fs.lookup (create_css fs dir name c).1 (pathJoin dir name) =
      some (FileContent.text c) ∧
    create_css (create_css fs dir name c).1 dir name c2 =
      ((create_css fs dir name c).1, pathJoin dir name) := by
  have hfs1 : ensureFileCreated fs (pathJoin dir name) =
      Fs.set fs (pathJoin dir name) (FileContent.text "") := by
    simp [ensureFileCreated, h1]
  have hempty : ("" : String).isEmpty = true := rfl
  have hfirst : create_css fs dir name c =
      (Fs.set (Fs.set fs (pathJoin dir name) (FileContent.text ""))
        (pathJoin dir name) (FileContent.text c), pathJoin dir name) := by
    simp [create_css, hfs1, Fs.lookup_set_self, FileContent.byteEmpty,
      hempty]
  refine ⟨by rw [hfirst], ?_, ?_⟩
  · rw [hfirst]
    exact Fs.lookup_set_self _ _ _
  · rw [hfirst]
    have hlook2 : Fs.lookup
        (Fs.set (Fs.set fs (pathJoin dir name) (FileContent.text ""))
          (pathJoin dir name) (FileContent.text c)) (pathJoin dir name) =
        some (FileContent.text c) := Fs.lookup_set_self _ _ _
    have hf2 : isFile
        (Fs.set (Fs.set fs (pathJoin dir name) (FileContent.text ""))
          (pathJoin dir name) (FileContent.text c)) (pathJoin dir name) =
        true := by simp [isFile, hlook2]
    simp [create_css, ensureFileCreated, hf2, hlook2,
      FileContent.byteEmpty, h2]

/-- Witness for C7: a fresh stylesheet is provisioned, and a second call
with a different default neither rewrites the file nor changes the path. -/
theorem create_css_provision_witness :
    (create_css [] "d" "style.css" "body red").2 = pathJoin "d" "style.css" ∧
    Fs.lookup (create_css [] "d" "style.css" "body red").1
        (pathJoin "d" "style.css") = some (FileContent.text "body red") ∧
    create_css (create_css [] "d" "style.css" "body red").1 "d" "style.css"
        "other" =
      ((create_css [] "d" "style.css" "body red").1,
        pathJoin "d" "style.css") :=
  create_css_provision [] "d" "style.css" "body red" "other"
    (by decide) (by decide)

/-- C8: the merge `Conf.create_from_optional` is a total pure function on
partial values: every present field is used verbatim and every absent
field is replaced by its fixed type-specific default. -/
theorem create_from_optional_fields (o : OptConf) :
    (∀ n, o.something = some n →
      (Conf.create_from_optional o).something = n) ∧
    (o.something = none → (Conf.create_from_optional o).something = 0) ∧
    (∀ s, o.what = some s → (Conf.create_from_optional o).what = s) ∧
    (o.what = none → (Conf.create_from_optional o).what = "pingpang") := by
  obtain ⟨s1, w1⟩ := o
  cases s1 <;> cases w1 <;> simp [Conf.create_from_optional]

/-- Witness for C8 at a partial value with one present and one absent
field. -/
theorem create_from_optional_fields_witness :
    (Conf.create_from_optional
      { something := some 5, what := none }).something = 5 ∧
    (Conf.create_from_optional
      { something := some 5, what := none }).what = "pingpang" :=
  ⟨(create_from_optional_fields { something := some 5, what := none }).1 5
      rfl,
    (create_from_optional_fields
      { something := some 5, what := none }).2.2.2 rfl⟩

/-- C9: `read_specific_config` on an existing regular file with empty text
succeeds with the all-defaults complete value: the empty default string
is substituted for the empty text, parses to the all-absent partial, and
the merge fills both type defaults. -/
theorem read_specific_config_empty_file (fs : Fs)
    (parse : String → Option OptConf) (p : String)
    (h1 : Fs.lookup fs p = some (FileContent.text ""))
    (h2 : parse "" = some { something := none, what := none }) :
    read_specific_config fs parse p =
      .ok (fs, some { something := 0, what := "pingpang" }) := by
  have hf : isFile fs p = true := by simp [isFile, h1]
  have hcf : configFilePath p "" = p := rfl
  have hfix : ensureFileCreated fs p = fs := ensure_of_isFile hf
  have hrc : readToStringFs fs p = some "" := by
    simp [readToStringFs, h1, FileContent.toText]
  have hcc : configContents fs p "" = "" := by simp [configContents, hrc]
  have hpr : parseWithRetry parse "" =
      some { something := none, what := none } := by
    simp [parseWithRetry, h2]
  simp [read_specific_config, pathBufFromStr, hf, create_config, hcf,
    hfix, hcc, hpr, Conf.create_from_optional]

/-- Witness for C9 at a concrete empty file under the model parser. -/
theorem read_specific_config_empty_file_witness :
    read_specific_config [("/e", FileContent.text "")] modelParse "/e" =
      .ok ([("/e", FileContent.text "")],
        some { something := 0, what := "pingpang" }) :=
  read_specific_config_empty_file [("/e", FileContent.text "")] modelParse
    "/e" (by decide) (by decide)

/-- C10: the string-to-path conversion is infallible, so the error branch
guarding it in both readers is unreachable; an error result can only
arise from the path not being a regular file or, for the raw reader, from
the read itself failing. -/
theorem pathbuf_from_str_infallible :
    (∀ s, pathBufFromStr s = some s) ∧
    (∀ (fs : Fs) (p : String), read_specific_css fs p = .error {} →
      isFile fs p = false ∨ readToStringFs fs p = none) ∧
    (∀ (fs : Fs) (parse : String → Option OptConf) (p : String),
      read_specific_config fs parse p = .error {} →
      isFile fs p = false) := by
  refine ⟨fun s => rfl, ?_, ?_⟩
  · intro fs p h
    by_cases hf : isFile fs p
    · right
      simp only [read_specific_css, pathBufFromStr, hf, if_true] at h
      cases hr : readToStringFs fs p with
      | none => rfl
      | some s => simp [hr] at h
    · left
      simpa using hf
  · intro fs parse p h
    by_cases hf : isFile fs p
    · simp [read_specific_config, pathBufFromStr, hf] at h
    · simpa using hf

/-- Witness for C10: on the empty filesystem the raw reader's error comes
from the is-file check, never from the path conversion. -/
theorem pathbuf_from_str_infallible_witness :
    isFile ([] : Fs) "/x" = false ∨ readToStringFs ([] : Fs) "/x" = none :=
  pathbuf_from_str_infallible.2.1 [] "/x" rfl
